import Mathlib

/-!
# SmallSatPlanner, OMPL version: `planner.h`

A shallow embedding of the classes declared in `src/OMPL-version/planner.h`
(`RigidBodyStateSpace`, `myStateValidityCheckerClass`, `RigidBodyEnvironment`,
`RigidBodyGoal`) together with theorems about them.

Conventions of the embedding.

* A C++ `double` is a real number: arithmetic is exact, there is no rounding,
  no overflow, no NaN and no infinity.  `fabs` is the absolute value and
  `sqrt` the real square root.
* The two distance functions are embedded a second time, as `distanceF` and
  `distanceGoalF`, with `double` read as binary64 (type `F64`): every
  operation rounds to the nearest binary64 value, ties to even, with no fused
  multiply-add and no extended precision.  Statements made "over the reals"
  are about the first reading.
* A `const double *` that the code indexes with `0`, `1`, `2` is a function
  `Fin 3 → ℝ`.
* A `std::vector<double>` is a `List ℝ`.
* Handles of the physics library (`dWorldID`, `dSpaceID`, `dGeomID`,
  `dBodyID`) are natural numbers (the pointer value, `0` for a null handle).
* The physics library itself is a parameter: its state is an arbitrary type
  and its functions are the fields of `OdeApi`.  `modelApi` is one instance, a
  reference model that records the calls made and accumulates forces; it
  serves for concrete evaluations.
* The bounds object of the planning library is a pair of lists, one entry per
  axis, and is stored by copy.
-/

namespace SmallSatPlanner

/-! ## Types declared by the libraries -/

/-- A `double[3]` array, read through a `const double *`. -/
abbrev Vec3 := Fin 3 → ℝ

/-- Orientation of a body, the four reals of a unit quaternion. -/
structure Quaternion4 where
  x : ℝ
  y : ℝ
  z : ℝ
  w : ℝ

/-- Modelled from the spec: the part of a state that belongs to one body.  The
declaration of `OpenDEStateSpace::StateType` is not in the repository; the spec
(section 6) lists position (3 reals), orientation, linear velocity (3 reals)
and angular velocity (3 reals). -/
structure BodyState where
  position : Vec3
  linearVelocity : Vec3
  angularVelocity : Vec3
  orientation : Quaternion4

/-- Modelled from the spec: `OpenDEStateSpace::StateType`, the state of the
planner.  Body 0 always exists (the environment registers one body); further
bodies and the collision flag of the library are carried along. -/
structure StateType where
  body0 : BodyState
  otherBodies : List BodyState
  collision : Int

/-- The accessor `getBodyPosition(0)` of the state type. -/
def StateType.getBodyPosition0 (s : StateType) : Vec3 :=
  s.body0.position

/-- The function `fabs` of the C library, on reals. -/
def fabs (a : ℝ) : ℝ := |a|

/-- The function `sqrt` of the C library, on reals. -/
noncomputable def sqrt (a : ℝ) : ℝ := Real.sqrt a

/-! ## `RigidBodyStateSpace` -/

namespace RigidBodyStateSpace

/-- The method `RigidBodyStateSpace::distance` (planner.h, lines 37-45). -/
noncomputable def distance (s1 s2 : StateType) : ℝ :=
  let p1 := s1.getBodyPosition0
  let p2 := s2.getBodyPosition0
  let dx := fabs (p1 0 - p2 0)
  let dy := fabs (p1 1 - p2 1)
  let dz := fabs (p1 2 - p2 2)
  sqrt (dx * dx + dy * dy + dz * dz)

end RigidBodyStateSpace

/-! ## `myStateValidityCheckerClass` -/

namespace myStateValidityCheckerClass

/-- The method `myStateValidityCheckerClass::isValid` (planner.h, lines 57-60). -/
def isValid (_state : StateType) : Bool :=
  true

end myStateValidityCheckerClass

/-! ## The physics library, as a parameter -/

/-- A handle of a simulation world. -/
abbrev dWorldID := Nat

/-- A handle of a collision space. -/
abbrev dSpaceID := Nat

/-- A handle of a geometry. -/
abbrev dGeomID := Nat

/-- A handle of a rigid body. -/
abbrev dBodyID := Nat

/-- The functions of the physics library that `RigidBodyEnvironment` calls.
The library is not part of the repository, so its state is an arbitrary type
`W`, its mass record an arbitrary type `M`, and each function an arbitrary
(deterministic) transformer of that state. -/
structure OdeApi (W M : Type) where
  dWorldCreate : W → dWorldID × W
  dHashSpaceCreate : dSpaceID → W → dSpaceID × W
  dWorldSetGravity : dWorldID → ℝ → ℝ → ℝ → W → W
  dMassSetBox : M → ℝ → ℝ → ℝ → ℝ → M
  dCreateBox : dSpaceID → ℝ → ℝ → ℝ → W → dGeomID × W
  dBodyCreate : dWorldID → W → dBodyID × W
  dBodySetMass : dBodyID → M → W → W
  dGeomSetBody : dGeomID → dBodyID → W → W
  dBodyAddForce : dBodyID → ℝ → ℝ → ℝ → W → W
  dSpaceDestroy : dSpaceID → W → W
  dWorldDestroy : dWorldID → W → W

/-- The two contact-mode constants of the physics library that `setupContact`
combines.  Their numeric values belong to the library. -/
structure OdeContactFlags where
  dContactSoftCFM : Nat
  dContactApprox1 : Nat

/-- Modelled from the spec: the surface parameters of a contact.  The
declaration of `dSurfaceParameters` is not in the repository; the spec
(section 3) lists a friction coefficient, a surface compliance and a mode flag
set.  All remaining surface parameters are the component `others`, of an
arbitrary type. -/
structure dSurfaceParameters (S : Type) where
  mode : Nat
  mu : ℝ
  soft_cfm : ℝ
  others : S

/-- Modelled from the spec: a collision contact, `dContact`.  Its declaration
is not in the repository; the members besides `surface` (the contact geometry
and the friction direction) are the component `geom`, of an arbitrary type. -/
structure dContact (S G : Type) where
  surface : dSurfaceParameters S
  geom : G

/-- The members of the base class `OpenDEEnvironment` that `planner.h`
assigns. -/
structure OpenDEEnvironment where
  world_ : dWorldID
  collisionSpaces_ : List dSpaceID
  stateBodies_ : List dBodyID
  stepSize_ : ℝ
  maxContacts_ : Nat
  minControlSteps_ : Nat
  maxControlSteps_ : Nat

/-- The class `RigidBodyEnvironment` (planner.h, lines 64-168): the members of
the base class and the five members it declares. -/
structure RigidBodyEnvironment (M : Type) extends OpenDEEnvironment where
  bodyWorld : dWorldID
  space : dSpaceID
  m : M
  boxGeom : dGeomID
  boxBody : dBodyID

/-- The call `v.resize(n)` of `std::vector<double>`: keep the first `n`
elements and fill up with zeros. -/
def resize (v : List ℝ) (n : Nat) : List ℝ :=
  v.take n ++ List.replicate (n - v.length) 0

namespace RigidBodyEnvironment

/-- The method `RigidBodyEnvironment::getControlDimension` (planner.h, lines
93-96). -/
def getControlDimension : Nat :=
  3

/-- The function-local `static double maxForce = 0.2` of `getControlBounds`;
it is never assigned after its initialisation. -/
noncomputable def maxForce : ℝ := 0.2

/-- The method `RigidBodyEnvironment::getControlBounds` (planner.h, lines
98-110).  The two output parameters are passed in and returned. -/
noncomputable def getControlBounds (lower upper : List ℝ) : List ℝ × List ℝ :=
  let lower := resize lower 3
  let lower := lower.set 0 (-maxForce)
  let lower := lower.set 1 (-maxForce)
  let lower := lower.set 2 (-maxForce)
  let upper := resize upper 3
  let upper := upper.set 0 maxForce
  let upper := upper.set 1 maxForce
  let upper := upper.set 2 maxForce
  (lower, upper)

/-- The method `RigidBodyEnvironment::applyControl` (planner.h, lines
112-115). -/
def applyControl {W M : Type} (api : OdeApi W M) (env : RigidBodyEnvironment M)
    (control : Vec3) (w : W) : W :=
  api.dBodyAddForce env.boxBody (control 0) (control 1) (control 2) w

/-- The method `RigidBodyEnvironment::isValidCollision` (planner.h, lines
117-120). -/
def isValidCollision {S G : Type} (_geom1 _geom2 : dGeomID) (_contact : dContact S G) : Bool :=
  false

/-- The method `RigidBodyEnvironment::setupContact` (planner.h, lines
122-127).  The contact is passed in and returned. -/
noncomputable def setupContact {S G : Type} (flags : OdeContactFlags)
    (_geom1 _geom2 : dGeomID) (contact : dContact S G) : dContact S G :=
  let contact := { contact with
    surface := { contact.surface with mode := flags.dContactSoftCFM ||| flags.dContactApprox1 } }
  let contact := { contact with surface := { contact.surface with mu := 0.9 } }
  let contact := { contact with surface := { contact.surface with soft_cfm := 0.2 } }
  contact

/-- The method `RigidBodyEnvironment::setPlanningParameters` (planner.h, lines
129-139). -/
noncomputable def setPlanningParameters {M : Type} (env : RigidBodyEnvironment M) :
    RigidBodyEnvironment M :=
  let env := { env with world_ := env.bodyWorld }
  let env := { env with collisionSpaces_ := env.collisionSpaces_ ++ [env.space] }
  let env := { env with stateBodies_ := env.stateBodies_ ++ [env.boxBody] }
  let env := { env with stepSize_ := 0.05 }
  let env := { env with maxContacts_ := 1 }
  let env := { env with minControlSteps_ := 10 }
  let env := { env with maxControlSteps_ := 500 }
  env

/-- The method `RigidBodyEnvironment::createWorld` (planner.h, lines 141-160).
The state of the physics library is passed in and returned. -/
noncomputable def createWorld {W M : Type} (api : OdeApi W M) (env : RigidBodyEnvironment M)
    (w : W) : RigidBodyEnvironment M × W :=
  let (bodyWorld, w) := api.dWorldCreate w
  let env := { env with bodyWorld := bodyWorld }
  let (space, w) := api.dHashSpaceCreate 0 w
  let env := { env with space := space }
  let w := api.dWorldSetGravity env.bodyWorld 0 0 (-0.981) w
  let lx : ℝ := 0.2
  let ly : ℝ := 0.2
  let lz : ℝ := 0.1
  let env := { env with m := api.dMassSetBox env.m 1 lx ly lz }
  let (boxGeom, w) := api.dCreateBox env.space lx ly lz w
  let env := { env with boxGeom := boxGeom }
  let (boxBody, w) := api.dBodyCreate env.bodyWorld w
  let env := { env with boxBody := boxBody }
  let w := api.dBodySetMass env.boxBody env.m w
  let w := api.dGeomSetBody env.boxGeom env.boxBody w
  (setPlanningParameters env, w)

/-- The method `RigidBodyEnvironment::destroyWorld` (planner.h, lines
162-166). -/
def destroyWorld {W M : Type} (api : OdeApi W M) (env : RigidBodyEnvironment M) (w : W) : W :=
  let w := api.dSpaceDestroy env.space w
  api.dWorldDestroy env.bodyWorld w

/-- The constructor `RigidBodyEnvironment::RigidBodyEnvironment` (planner.h,
lines 83-86).  The argument `base` is the object as the constructor of the
base class leaves it, with the five members of this class not yet assigned;
the constructor of the base class is not in the repository, so `base` is
arbitrary. -/
noncomputable def ctor {W M : Type} (api : OdeApi W M) (base : RigidBodyEnvironment M) (w : W) :
    RigidBodyEnvironment M × W :=
  createWorld api base w

end RigidBodyEnvironment

/-! ## `RigidBodyGoal` -/

/-- The class `RigidBodyGoal` (planner.h, lines 172-190): the member
`threshold_` of its base class `GoalRegion`. -/
structure RigidBodyGoal where
  threshold_ : ℝ

namespace RigidBodyGoal

/-- The constructor `RigidBodyGoal::RigidBodyGoal` (planner.h, lines 176-179).
The argument `base` is the object as the constructor of the base class leaves
it. -/
noncomputable def ctor (base : RigidBodyGoal) : RigidBodyGoal :=
  { base with threshold_ := 0.5 }

/-- The method `RigidBodyGoal::distanceGoal` (planner.h, lines 181-188). -/
noncomputable def distanceGoal (_goal : RigidBodyGoal) (st : StateType) : ℝ :=
  let pos := st.getBodyPosition0
  let dx := fabs (pos 0 - 30)
  let dy := fabs (pos 1 - 55)
  let dz := fabs (pos 2 - 35)
  sqrt (dx * dx + dy * dy + dz * dz)

/-- Modelled from the spec: the method `isSatisfied`, which `RigidBodyGoal`
inherits from the class `GoalRegion` of the planning library and which is not
in the repository.  Section 4.4 of the spec: true iff
`distanceGoal(state) <= threshold`. -/
noncomputable def isSatisfied (goal : RigidBodyGoal) (st : StateType) : Bool :=
  decide (goal.distanceGoal st ≤ goal.threshold_)

end RigidBodyGoal

/-! ## The bounds declared by `RigidBodyStateSpace` -/

/-- Modelled from the spec: the bounds object `ob::RealVectorBounds` of the
planning library, whose declaration is not in the repository: a lower and an
upper bound for each axis. -/
structure RealVectorBounds where
  low : List ℝ
  high : List ℝ

namespace RealVectorBounds

/-- Modelled from the spec: the constructor `RealVectorBounds(dim)`, absent
from the repository; it gives `dim` axes, each with the bounds zero. -/
def ctor (dim : Nat) : RealVectorBounds :=
  { low := List.replicate dim 0, high := List.replicate dim 0 }

/-- Modelled from the spec: the method `setLow(value)`, absent from the
repository; it sets the lower bound of every axis. -/
def setLow (bounds : RealVectorBounds) (value : ℝ) : RealVectorBounds :=
  { bounds with low := bounds.low.map (fun _ => value) }

/-- Modelled from the spec: the method `setHigh(value)`, absent from the
repository; it sets the upper bound of every axis. -/
def setHigh (bounds : RealVectorBounds) (value : ℝ) : RealVectorBounds :=
  { bounds with high := bounds.high.map (fun _ => value) }

end RealVectorBounds

/-- The class `RigidBodyStateSpace` (planner.h, lines 17-46): the three bounds
that its base class `OpenDEStateSpace` keeps.  Modelled from the spec: the
base class is not in the repository; section 4.1 of the spec names a position
bound, a linear-velocity bound and an angular-velocity bound. -/
structure RigidBodyStateSpace where
  volumeBounds : RealVectorBounds
  linearVelocityBounds : RealVectorBounds
  angularVelocityBounds : RealVectorBounds

namespace RigidBodyStateSpace

/-- Modelled from the spec: the method `setVolumeBounds` of the base class,
absent from the repository; it stores a copy of the bounds passed. -/
def setVolumeBounds (space : RigidBodyStateSpace) (bounds : RealVectorBounds) :
    RigidBodyStateSpace :=
  { space with volumeBounds := bounds }

/-- Modelled from the spec: the method `setLinearVelocityBounds` of the base
class, absent from the repository; it stores a copy of the bounds passed. -/
def setLinearVelocityBounds (space : RigidBodyStateSpace) (bounds : RealVectorBounds) :
    RigidBodyStateSpace :=
  { space with linearVelocityBounds := bounds }

/-- Modelled from the spec: the method `setAngularVelocityBounds` of the base
class, absent from the repository; it stores a copy of the bounds passed. -/
def setAngularVelocityBounds (space : RigidBodyStateSpace) (bounds : RealVectorBounds) :
    RigidBodyStateSpace :=
  { space with angularVelocityBounds := bounds }

/-- The constructor `RigidBodyStateSpace::RigidBodyStateSpace` (planner.h,
lines 21-35).  The argument `base` is the object as the constructor of the
base class leaves it. -/
noncomputable def ctor (base : RigidBodyStateSpace) : RigidBodyStateSpace :=
  let space := base
  let bounds := RealVectorBounds.ctor 3
  let bounds := bounds.setLow (-200)
  let bounds := bounds.setHigh 200
  let space := space.setVolumeBounds bounds
  let bounds := bounds.setLow (-20)
  let bounds := bounds.setHigh 20
  let space := space.setLinearVelocityBounds bounds
  let bounds := bounds.setLow (-20)
  let bounds := bounds.setHigh 20
  let space := space.setAngularVelocityBounds bounds
  space

end RigidBodyStateSpace

/-! ## Sequences of public operations of `RigidBodyEnvironment` -/

/-- The public methods of `RigidBodyEnvironment` (planner.h, lines 93-166).
The arguments and results of the methods declared `const` that take no part in
the state of the environment or of the physics library are left out. -/
inductive PublicOp where
  | getControlDimension
  | getControlBounds
  | applyControl (control : Vec3)
  | isValidCollision
  | setupContact
  | setPlanningParameters
  | createWorld
  | destroyWorld

namespace PublicOp

/-- The effect of one public method on the environment and on the state of
the physics library. -/
noncomputable def apply {W M : Type} (api : OdeApi W M) (op : PublicOp)
    (st : RigidBodyEnvironment M × W) : RigidBodyEnvironment M × W :=
  match op with
  | getControlDimension => st
  | getControlBounds => st
  | applyControl control => (st.1, RigidBodyEnvironment.applyControl api st.1 control st.2)
  | isValidCollision => st
  | setupContact => st
  | setPlanningParameters => (RigidBodyEnvironment.setPlanningParameters st.1, st.2)
  | createWorld => RigidBodyEnvironment.createWorld api st.1 st.2
  | destroyWorld => (st.1, RigidBodyEnvironment.destroyWorld api st.1 st.2)

/-- The methods that register the space and the body with the planner again:
`setPlanningParameters`, and `createWorld`, which calls it. -/
def registers : PublicOp → Bool
  | setPlanningParameters => true
  | createWorld => true
  | _ => false

end PublicOp

/-- The effect of a sequence of public methods, called one after the other. -/
noncomputable def runOps {W M : Type} (api : OdeApi W M) (ops : List PublicOp)
    (st : RigidBodyEnvironment M × W) : RigidBodyEnvironment M × W :=
  ops.foldl (fun st op => op.apply api st) st

/-! ## A reference model of the physics library -/

/-- A call of the physics library, with the handles it is given. -/
inductive OdeCall where
  | dWorldCreate
  | dHashSpaceCreate (parent : dSpaceID)
  | dWorldSetGravity (world : dWorldID)
  | dCreateBox (space : dSpaceID)
  | dBodyCreate (world : dWorldID)
  | dBodySetMass (body : dBodyID)
  | dGeomSetBody (geom : dGeomID) (body : dBodyID)
  | dBodyAddForce (body : dBodyID)
  | dSpaceDestroy (space : dSpaceID)
  | dWorldDestroy (world : dWorldID)
  deriving DecidableEq

/-- Whether a call tears down a space or a world. -/
def OdeCall.isDestroy : OdeCall → Bool
  | .dSpaceDestroy _ => true
  | .dWorldDestroy _ => true
  | _ => false

/-- The state of the reference model: the calls made so far, oldest first, and
the force accumulated on each body. -/
structure OdeModel where
  calls : List OdeCall
  facc : dBodyID → Vec3

/-- A reference model of the physics library.  Each function records its call;
the four creation functions return the handles `world`, `space`, `geom` and
`body` (a null handle, `0`, stands for a failed creation); `dBodyAddForce`
adds the force to the accumulator of the body. -/
def modelApi (world : dWorldID) (space : dSpaceID) (geom : dGeomID) (body : dBodyID) :
    OdeApi OdeModel Unit where
  dWorldCreate := fun w => (world, { w with calls := w.calls ++ [.dWorldCreate] })
  dHashSpaceCreate := fun parent w =>
    (space, { w with calls := w.calls ++ [.dHashSpaceCreate parent] })
  dWorldSetGravity := fun wd _ _ _ w => { w with calls := w.calls ++ [.dWorldSetGravity wd] }
  dMassSetBox := fun _ _ _ _ _ => ()
  dCreateBox := fun sp _ _ _ w => (geom, { w with calls := w.calls ++ [.dCreateBox sp] })
  dBodyCreate := fun wd w => (body, { w with calls := w.calls ++ [.dBodyCreate wd] })
  dBodySetMass := fun b _ w => { w with calls := w.calls ++ [.dBodySetMass b] }
  dGeomSetBody := fun g b w => { w with calls := w.calls ++ [.dGeomSetBody g b] }
  dBodyAddForce := fun b fx fy fz w =>
    { calls := w.calls ++ [.dBodyAddForce b],
      facc := Function.update w.facc b (w.facc b + ![fx, fy, fz]) }
  dSpaceDestroy := fun sp w => { w with calls := w.calls ++ [.dSpaceDestroy sp] }
  dWorldDestroy := fun wd w => { w with calls := w.calls ++ [.dWorldDestroy wd] }

/-- The reference model before any call: no call made, no force accumulated. -/
def OdeModel.empty : OdeModel :=
  { calls := [], facc := fun _ _ => 0 }

/-- An environment as the constructor of the base class leaves it: no
collision space and no body registered, every number zero. -/
def blankEnvironment : RigidBodyEnvironment Unit :=
  { world_ := 0, collisionSpaces_ := [], stateBodies_ := [], stepSize_ := 0,
    maxContacts_ := 0, minControlSteps_ := 0, maxControlSteps_ := 0,
    bodyWorld := 0, space := 0, m := (), boxGeom := 0, boxBody := 0 }

/-! ## Binary64 arithmetic

The second reading of `double`: the finite values are the integer multiples
`k * 2^(-1074)` that have at most 53 significant bits and lie below `2^1024` in
magnitude.  Every operation computes the exact result and rounds it to the
nearest such value, ties to the even one.  The two zeros are one value: the
program never divides, so it cannot tell them apart.
-/

/-- A binary64 value: the finite number `units * 2^(-1074)`, an infinity, or a
NaN. -/
inductive F64 where
  | finite (units : Int)
  | inf (negative : Bool)
  | nan
  deriving DecidableEq

namespace F64

/-- The number of bits of `n`, for `n` below `2^8192`: the position of the
highest set bit, found by bisection, plus one. -/
def bitLength (n : Nat) : Nat :=
  if n = 0 then 0
  else [4096, 2048, 1024, 512, 256, 128, 64, 32, 16, 8, 4, 2, 1].foldl
    (fun b i => if 2 ^ (b + i) ≤ n then b + i else b) 0 + 1

/-- The steps of a bisection over `2^k` positions: `2^(k-1)`, ..., 2, 1. -/
def bisectionSteps : Nat → List Nat
  | 0 => []
  | k + 1 => 2 ^ k :: bisectionSteps k

/-- The non-negative number `num / 2^shift`, counted in units of `2^(-1074)`,
rounded to the nearest number with at most 53 significant bits, ties to the
even one.  The result is again counted in units of `2^(-1074)`. -/
def roundUnits (num shift : Nat) : Nat :=
  let drop := shift + (bitLength (num / 2 ^ shift) - 53)
  let q := num / 2 ^ drop
  let r := num % 2 ^ drop
  let q := if 2 ^ drop < 2 * r ∨ (2 * r = 2 ^ drop ∧ q % 2 = 1) then q + 1 else q
  q * 2 ^ (drop - shift)

/-- The value with the given sign and rounded magnitude; a magnitude of
`2^1024` or more, which is `2^2098` units, overflows to an infinity. -/
def ofUnits (negative : Bool) (magnitude : Nat) : F64 :=
  if 2 ^ 2098 ≤ magnitude then inf negative
  else finite (if negative then -(magnitude : Int) else (magnitude : Int))

/-- Subtraction of binary64 values. -/
def sub : F64 → F64 → F64
  | finite x, finite y => ofUnits (decide (x - y < 0)) (roundUnits (x - y).natAbs 0)
  | finite _, inf t => inf (!t)
  | inf s, finite _ => inf s
  | inf s, inf t => if s = t then nan else inf s
  | nan, _ => nan
  | _, nan => nan

/-- Addition of binary64 values. -/
def add : F64 → F64 → F64
  | finite x, finite y => ofUnits (decide (x + y < 0)) (roundUnits (x + y).natAbs 0)
  | finite _, inf t => inf t
  | inf s, finite _ => inf s
  | inf s, inf t => if s = t then inf s else nan
  | nan, _ => nan
  | _, nan => nan

/-- Multiplication of binary64 values; the product of two numbers of units is
counted in units of `2^(-2148)`. -/
def mul : F64 → F64 → F64
  | finite x, finite y => ofUnits (decide (x * y < 0)) (roundUnits (x * y).natAbs 1074)
  | finite x, inf t => if x = 0 then nan else inf (xor (decide (x < 0)) t)
  | inf s, finite y => if y = 0 then nan else inf (xor s (decide (y < 0)))
  | inf s, inf t => inf (xor s t)
  | nan, _ => nan
  | _, nan => nan

/-- The comparison `<=` of binary64 values. -/
def le : F64 → F64 → Bool
  | finite x, finite y => decide (x ≤ y)
  | finite _, inf t => !t
  | inf s, finite _ => s
  | inf s, inf t => s || !t
  | nan, _ => false
  | _, nan => false

/-- The integer square root of `n`, bit by bit from bit `i - 1` downwards,
starting from `r`. -/
def isqrtBits (n : Nat) : Nat → Nat → Nat
  | 0, r => r
  | i + 1, r => isqrtBits n i (if (r + 2 ^ i) * (r + 2 ^ i) ≤ n then r + 2 ^ i else r)

/-- The square root of `k` units, for `k` positive, rounded to the nearest
number with at most 53 significant bits, in units of `2^(-1074)`.  The square
root of `k * 2^(-1074)` is the square root of `n = k * 2^1074`, in units; its
leading 53 bits `q` are the integer square root of `n / 4^j`, and it lies above
the midpoint `(q + 1/2) * 2^j` when `(2 q + 1)^2 * 4^j < 4 n`. -/
def sqrtUnits (k : Nat) : Nat :=
  let n := k * 2 ^ 1074
  let j := (bitLength n + 1) / 2 - 53
  let q := isqrtBits (n / 4 ^ j) 54 0
  let t := (2 * q + 1) * (2 * q + 1) * 4 ^ j
  let q := if t < 4 * n ∨ (t = 4 * n ∧ q % 2 = 1) then q + 1 else q
  q * 2 ^ j

/-- The binary64 value `m * 2^e`, for `e` at least -1074; it is a binary64
value when `m` has at most 53 bits and the magnitude is below `2^1024`. -/
def ofBinary (m : Int) (e : Int) : F64 :=
  finite (m * ((2 ^ (e + 1074).toNat : Nat) : Int))

/-- Whether a value is one that binary64 can hold: rounding leaves a finite
value as it is and does not overflow. -/
def isDouble : F64 → Bool
  | finite k => decide (roundUnits k.natAbs 0 = k.natAbs ∧ k.natAbs < 2 ^ 2098)
  | inf _ => true
  | nan => true

end F64

instance : Sub F64 := ⟨F64.sub⟩

instance : Add F64 := ⟨F64.add⟩

instance : Mul F64 := ⟨F64.mul⟩

/-- The function `fabs` of the C library, on binary64 values. -/
def fabsF : F64 → F64
  | .finite x => .finite (x.natAbs : Int)
  | .inf _ => .inf false
  | .nan => .nan

/-- The function `sqrt` of the C library, on binary64 values. -/
def sqrtF : F64 → F64
  | .finite x => if x < 0 then .nan else .finite (F64.sqrtUnits x.natAbs : Nat)
  | .inf s => if s then .nan else .inf false
  | .nan => .nan

/-- A `double[3]` array of binary64 values. -/
abbrev Vec3F := Fin 3 → F64

/-- Modelled from the spec: the state of the planner, as `StateType`, with
binary64 components: the position, the velocities and the orientation of
body 0. -/
structure StateTypeF where
  position : Vec3F
  linearVelocity : Vec3F
  angularVelocity : Vec3F
  orientation : Fin 4 → F64

/-- The accessor `getBodyPosition(0)` of the state type. -/
def StateTypeF.getBodyPosition0 (s : StateTypeF) : Vec3F :=
  s.position

/-- The method `RigidBodyStateSpace::distance` (planner.h, lines 37-45), in
binary64 arithmetic. -/
def RigidBodyStateSpace.distanceF (s1 s2 : StateTypeF) : F64 :=
  let p1 := s1.getBodyPosition0
  let p2 := s2.getBodyPosition0
  let dx := fabsF (p1 0 - p2 0)
  let dy := fabsF (p1 1 - p2 1)
  let dz := fabsF (p1 2 - p2 2)
  sqrtF (dx * dx + dy * dy + dz * dz)

/-- The method `RigidBodyGoal::distanceGoal` (planner.h, lines 181-188), in
binary64 arithmetic. -/
def RigidBodyGoal.distanceGoalF (st : StateTypeF) : F64 :=
  let pos := st.getBodyPosition0
  let dx := fabsF (pos 0 - F64.ofBinary 30 0)
  let dy := fabsF (pos 1 - F64.ofBinary 55 0)
  let dz := fabsF (pos 2 - F64.ofBinary 35 0)
  sqrtF (dx * dx + dy * dy + dz * dz)

/-- A binary64 state at rest at position `p`, whose linear velocity has the
three components `v`. -/
def sampleStateF (p : Vec3F) (v : F64) : StateTypeF :=
  { position := p
    linearVelocity := fun _ => v
    angularVelocity := fun _ => F64.finite 0
    orientation := ![F64.finite 0, F64.finite 0, F64.finite 0, F64.ofBinary 1 0] }

/-- The binary64 state at position (1 + 9 * 2^(-52), 55, 35). -/
def nearOneStateA : StateTypeF :=
  sampleStateF ![F64.ofBinary (2 ^ 52 + 9) (-52), F64.ofBinary 55 0, F64.ofBinary 35 0]
    (F64.finite 0)

/-- The binary64 state at position (1 + 7 * 2^(-52), 55, 35). -/
def nearOneStateB : StateTypeF :=
  sampleStateF ![F64.ofBinary (2 ^ 52 + 7) (-52), F64.ofBinary 55 0, F64.ofBinary 35 0]
    (F64.finite 0)

/-- The binary64 state at position (2^(-600), 0, 0). -/
def tinyState : StateTypeF :=
  sampleStateF ![F64.ofBinary 1 (-600), F64.finite 0, F64.finite 0] (F64.finite 0)

/-- The binary64 state at position (1e-170, 0, 0); the binary64 value of the
literal `1e-170` is 5438853046443695 * 2^(-617). -/
def tinyDecimalState : StateTypeF :=
  sampleStateF ![F64.ofBinary 5438853046443695 (-617), F64.finite 0, F64.finite 0]
    (F64.finite 0)

/-- The binary64 state at position (0, 0, 0). -/
def originState : StateTypeF :=
  sampleStateF ![F64.finite 0, F64.finite 0, F64.finite 0] (F64.finite 0)

/-! ## Auxiliary definitions for the statements -/

/-- A position as a point of Euclidean 3-space. -/
noncomputable def toEuclidean (p : Vec3) : EuclideanSpace ℝ (Fin 3) :=
  (WithLp.equiv 2 (Fin 3 → ℝ)).symm p

/-- A state with one body at position `p`, whose linear velocity has the
three components `v` and whose orientation has the last component `q`. -/
noncomputable def sampleState (p : Vec3) (v q : ℝ) : StateType :=
  { body0 :=
      { position := p
        linearVelocity := fun _ => v
        angularVelocity := fun _ => 0
        orientation := { x := 0, y := 0, z := 0, w := q } }
    otherBodies := []
    collision := 0 }

/-- The state `s` with body 0 moved to position `p`. -/
def StateType.withPosition (s : StateType) (p : Vec3) : StateType :=
  { s with body0 := { s.body0 with position := p } }

/-! ## Helper lemmas -/

/-- Squaring after `fabs` is squaring. -/
theorem fabs_mul_fabs (a : ℝ) : fabs a * fabs a = a ^ 2 := by
  unfold fabs
  rw [abs_mul_abs_self, sq]

/-- The value of `distance` as a square root of a sum of squares. -/
theorem distance_eq_sqrt (s1 s2 : StateType) :
    RigidBodyStateSpace.distance s1 s2 =
      Real.sqrt ((s1.body0.position 0 - s2.body0.position 0) ^ 2
        + (s1.body0.position 1 - s2.body0.position 1) ^ 2
        + (s1.body0.position 2 - s2.body0.position 2) ^ 2) := by
  simp only [RigidBodyStateSpace.distance, StateType.getBodyPosition0, sqrt, fabs_mul_fabs]

/-- The method `distance` is the Euclidean distance of the two positions. -/
theorem distance_eq_dist (s1 s2 : StateType) :
    RigidBodyStateSpace.distance s1 s2 =
      dist (toEuclidean s1.body0.position) (toEuclidean s2.body0.position) := by
  rw [distance_eq_sqrt, EuclideanSpace.dist_eq, Fin.sum_univ_three]
  simp [toEuclidean, Real.dist_eq, sq_abs]

/-- The value of `distanceGoal` as a square root of a sum of squares. -/
theorem distanceGoal_eq_sqrt (g : RigidBodyGoal) (s : StateType) :
    g.distanceGoal s =
      Real.sqrt ((s.body0.position 0 - 30) ^ 2 + (s.body0.position 1 - 55) ^ 2
        + (s.body0.position 2 - 35) ^ 2) := by
  simp only [RigidBodyGoal.distanceGoal, StateType.getBodyPosition0, sqrt, fabs_mul_fabs]

/-! ## The distance of the state space -/

/-- C1: for all states, `distance` is the square root of the sum of the squared
differences of the three position components of body 0, the differences taken
without `fabs`, and it is non-negative. -/
theorem distance_is_euclidean (s1 s2 : StateType) :
    RigidBodyStateSpace.distance s1 s2 =
        Real.sqrt ((s1.getBodyPosition0 0 - s2.getBodyPosition0 0) ^ 2
          + (s1.getBodyPosition0 1 - s2.getBodyPosition0 1) ^ 2
          + (s1.getBodyPosition0 2 - s2.getBodyPosition0 2) ^ 2)
      ∧ 0 ≤ RigidBodyStateSpace.distance s1 s2 := by
  refine ⟨distance_eq_sqrt s1 s2, ?_⟩
  rw [distance_eq_sqrt]
  exact Real.sqrt_nonneg _

/-- C2: for all states `p` and `q`, `distance p p` is zero and `distance p q`
equals `distance q p`. -/
theorem distance_self_and_symm (p q : StateType) :
    RigidBodyStateSpace.distance p p = 0
      ∧ RigidBodyStateSpace.distance p q = RigidBodyStateSpace.distance q p := by
  constructor
  · rw [distance_eq_dist, dist_self]
  · rw [distance_eq_dist, distance_eq_dist, dist_comm]

/-- C3: `distance` satisfies the triangle inequality. -/
theorem distance_triangle (a b c : StateType) :
    RigidBodyStateSpace.distance a c
      ≤ RigidBodyStateSpace.distance a b + RigidBodyStateSpace.distance b c := by
  simp only [distance_eq_dist]
  exact dist_triangle _ _ _

/-- C4: `distance` depends only on the positions of body 0: replacing both
arguments by states with the same positions does not change it, and two
states with the same position are at distance zero, whatever their
orientations and velocities. -/
theorem distance_depends_on_position_only (s1 s1' s2 s2' : StateType)
    (h1 : s1.getBodyPosition0 = s1'.getBodyPosition0)
    (h2 : s2.getBodyPosition0 = s2'.getBodyPosition0) :
    RigidBodyStateSpace.distance s1 s2 = RigidBodyStateSpace.distance s1' s2'
      ∧ RigidBodyStateSpace.distance s1 s1' = 0
      ∧ RigidBodyStateSpace.distance s2 s2' = 0 := by
  refine ⟨?_, ?_, ?_⟩
  · simp only [RigidBodyStateSpace.distance, h1, h2]
  · simp only [RigidBodyStateSpace.distance, h1, sub_self, fabs, abs_zero, mul_zero, add_zero,
      sqrt, Real.sqrt_zero]
  · simp only [RigidBodyStateSpace.distance, h2, sub_self, fabs, abs_zero, mul_zero, add_zero,
      sqrt, Real.sqrt_zero]

/-- A witness for C4: two states at position (1, 2, 3) and two states at
position (4, 6, 3), with different linear velocities and orientations. -/
theorem distance_depends_on_position_only_witness :
    RigidBodyStateSpace.distance (sampleState ![1, 2, 3] 0 1) (sampleState ![4, 6, 3] 5 0)
        = RigidBodyStateSpace.distance (sampleState ![1, 2, 3] 7 0) (sampleState ![4, 6, 3] (-4) 1)
      ∧ RigidBodyStateSpace.distance (sampleState ![1, 2, 3] 0 1) (sampleState ![1, 2, 3] 7 0) = 0
      ∧ RigidBodyStateSpace.distance (sampleState ![4, 6, 3] 5 0) (sampleState ![4, 6, 3] (-4) 1)
        = 0 :=
  distance_depends_on_position_only (sampleState ![1, 2, 3] 0 1) (sampleState ![1, 2, 3] 7 0)
    (sampleState ![4, 6, 3] 5 0) (sampleState ![4, 6, 3] (-4) 1) rfl rfl

/-! ## The control bounds -/

/-- The result of `getControlBounds`, whatever the two vectors held before. -/
theorem getControlBounds_eq (lower upper : List ℝ) :
    RigidBodyEnvironment.getControlBounds lower upper =
      ([-RigidBodyEnvironment.maxForce, -RigidBodyEnvironment.maxForce,
          -RigidBodyEnvironment.maxForce],
        [RigidBodyEnvironment.maxForce, RigidBodyEnvironment.maxForce,
          RigidBodyEnvironment.maxForce]) := by
  rcases lower with _ | ⟨a, _ | ⟨b, _ | ⟨c, t⟩⟩⟩ <;>
    rcases upper with _ | ⟨a', _ | ⟨b', _ | ⟨c', t'⟩⟩⟩ <;>
    simp [RigidBodyEnvironment.getControlBounds, resize, List.replicate]

/-- C5: whatever the two vectors held before, after `getControlBounds` both
have length 3, which is `getControlDimension`; every component of `upper` is
`maxForce`, which is 0.2, and the component of `lower` at the same index is
its negation; a second call on the results, and a call on any other vectors,
give the same results. -/
theorem getControlBounds_symmetric (lower upper : List ℝ) :
    (RigidBodyEnvironment.getControlBounds lower upper).1.length = 3
      ∧ (RigidBodyEnvironment.getControlBounds lower upper).2.length = 3
      ∧ RigidBodyEnvironment.getControlDimension = 3
      ∧ (∀ i : Fin 3, ∃ u : ℝ,
          (RigidBodyEnvironment.getControlBounds lower upper).2[i.val]? = some u
            ∧ u = RigidBodyEnvironment.maxForce ∧ u = 0.2
            ∧ (RigidBodyEnvironment.getControlBounds lower upper).1[i.val]? = some (-u))
      ∧ RigidBodyEnvironment.getControlBounds
            (RigidBodyEnvironment.getControlBounds lower upper).1
            (RigidBodyEnvironment.getControlBounds lower upper).2
          = RigidBodyEnvironment.getControlBounds lower upper
      ∧ (∀ lower' upper' : List ℝ,
          RigidBodyEnvironment.getControlBounds lower' upper'
            = RigidBodyEnvironment.getControlBounds lower upper) := by
  refine ⟨?_, ?_, rfl, ?_, ?_, ?_⟩
  · rw [getControlBounds_eq]; rfl
  · rw [getControlBounds_eq]; rfl
  · intro i
    refine ⟨RigidBodyEnvironment.maxForce, ?_, rfl, rfl, ?_⟩ <;>
      rw [getControlBounds_eq] <;> fin_cases i <;> rfl
  · rw [getControlBounds_eq, getControlBounds_eq]
  · intro lower' upper'
    rw [getControlBounds_eq, getControlBounds_eq]

/-! ## The goal region -/

/-- C6: for every state, `distanceGoal` is the Euclidean distance of the
position of body 0 to the point (30, 55, 35); replacing the orientation, the
velocities, the other bodies and the collision flag of the state does not
change it. -/
theorem distanceGoal_is_euclidean (g : RigidBodyGoal) (s : StateType) :
    g.distanceGoal s =
        Real.sqrt ((s.getBodyPosition0 0 - 30) ^ 2 + (s.getBodyPosition0 1 - 55) ^ 2
          + (s.getBodyPosition0 2 - 35) ^ 2)
      ∧ (∀ (v a : Vec3) (o : Quaternion4) (bs : List BodyState) (c : Int),
          g.distanceGoal
              { body0 := { position := s.body0.position, linearVelocity := v,
                           angularVelocity := a, orientation := o },
                otherBodies := bs, collision := c }
            = g.distanceGoal s) := by
  refine ⟨distanceGoal_eq_sqrt g s, ?_⟩
  intro v a o bs c
  rw [distanceGoal_eq_sqrt, distanceGoal_eq_sqrt]

/-- C7: with the threshold 0.5 set by the constructor, `isSatisfied` holds
exactly when `distanceGoal` is at most 0.5; every state at position
(30, 55, 35) has goal distance 0 and is satisfied, and every state at position
(30, 55, 36) has goal distance 1 and is not satisfied. -/
theorem isSatisfied_iff_within_threshold (base : RigidBodyGoal) (s : StateType) :
    (RigidBodyGoal.ctor base).threshold_ = 0.5
      ∧ ((RigidBodyGoal.ctor base).isSatisfied s = true
          ↔ (RigidBodyGoal.ctor base).distanceGoal s ≤ 0.5)
      ∧ (RigidBodyGoal.ctor base).distanceGoal (s.withPosition ![30, 55, 35]) = 0
      ∧ (RigidBodyGoal.ctor base).isSatisfied (s.withPosition ![30, 55, 35]) = true
      ∧ (RigidBodyGoal.ctor base).distanceGoal (s.withPosition ![30, 55, 36]) = 1
      ∧ (RigidBodyGoal.ctor base).isSatisfied (s.withPosition ![30, 55, 36]) = false := by
  have h0 : (RigidBodyGoal.ctor base).distanceGoal (s.withPosition ![30, 55, 35]) = 0 := by
    rw [distanceGoal_eq_sqrt]
    simp [StateType.withPosition]
  have h1 : (RigidBodyGoal.ctor base).distanceGoal (s.withPosition ![30, 55, 36]) = 1 := by
    rw [distanceGoal_eq_sqrt]
    simp [StateType.withPosition]
    norm_num
  have hiff : ∀ t : StateType, (RigidBodyGoal.ctor base).isSatisfied t = true
      ↔ (RigidBodyGoal.ctor base).distanceGoal t ≤ 0.5 := by
    intro t
    simp [RigidBodyGoal.isSatisfied, RigidBodyGoal.ctor]
  refine ⟨rfl, hiff s, h0, ?_, h1, ?_⟩
  · rw [hiff, h0]
    norm_num
  · rw [← Bool.not_eq_true, hiff, h1]
    norm_num

/-! ## The validity checker -/

/-- C8: `isValid` returns true on every state, and returns the same value on
any two states; a state whose position and velocity components are 1000, far
outside the declared bounds, is valid as well. -/
theorem isValid_always_true (s s' : StateType) :
    myStateValidityCheckerClass.isValid s = true
      ∧ myStateValidityCheckerClass.isValid s = myStateValidityCheckerClass.isValid s'
      ∧ myStateValidityCheckerClass.isValid (sampleState ![1000, 1000, 1000] 1000 1) = true :=
  ⟨rfl, rfl, rfl⟩

/-! ## The collision policy -/

/-- C9: for every pair of geometries and every contact, `isValidCollision`
returns false, and `setupContact` leaves the contact with friction 0.9,
softness 0.2 and the mode `dContactSoftCFM | dContactApprox1`, in which every
bit of `dContactSoftCFM` is set. -/
theorem collision_policy {S G : Type} (flags : OdeContactFlags) (geom1 geom2 : dGeomID)
    (contact : dContact S G) :
    RigidBodyEnvironment.isValidCollision geom1 geom2 contact = false
      ∧ (RigidBodyEnvironment.setupContact flags geom1 geom2 contact).surface.mu = 0.9
      ∧ (RigidBodyEnvironment.setupContact flags geom1 geom2 contact).surface.soft_cfm = 0.2
      ∧ (RigidBodyEnvironment.setupContact flags geom1 geom2 contact).surface.mode
          = flags.dContactSoftCFM ||| flags.dContactApprox1
      ∧ (RigidBodyEnvironment.setupContact flags geom1 geom2 contact).surface.mode
            &&& flags.dContactSoftCFM
          = flags.dContactSoftCFM := by
  refine ⟨rfl, rfl, rfl, rfl, ?_⟩
  show (flags.dContactSoftCFM ||| flags.dContactApprox1) &&& flags.dContactSoftCFM
    = flags.dContactSoftCFM
  apply Nat.eq_of_testBit_eq
  intro i
  rw [Nat.testBit_and, Nat.testBit_or]
  cases Nat.testBit flags.dContactSoftCFM i <;> simp

/-! ## The planning parameters -/

/-- The planner-visible parameters after `setPlanningParameters`. -/
theorem setPlanningParameters_values {M : Type} (env : RigidBodyEnvironment M) :
    (RigidBodyEnvironment.setPlanningParameters env).stepSize_ = 0.05
      ∧ (RigidBodyEnvironment.setPlanningParameters env).maxContacts_ = 1
      ∧ (RigidBodyEnvironment.setPlanningParameters env).minControlSteps_ = 10
      ∧ (RigidBodyEnvironment.setPlanningParameters env).maxControlSteps_ = 500 :=
  ⟨rfl, rfl, rfl, rfl⟩

/-- The environment that `createWorld` returns is a result of
`setPlanningParameters`. -/
theorem createWorld_eq_setPlanningParameters {W M : Type} (api : OdeApi W M)
    (env : RigidBodyEnvironment M) (w : W) :
    ∃ env' : RigidBodyEnvironment M,
      (RigidBodyEnvironment.createWorld api env w).1
        = RigidBodyEnvironment.setPlanningParameters env' :=
  ⟨_, rfl⟩

/-- C10: after the constructor, for every behaviour of the physics library and
every state the base-class constructor leaves, the step size is 0.05, the
maximal number of contacts 1, the minimal number of control steps 10 and the
maximal number 500; hence the step size is positive and
0 < minControlSteps_ <= maxControlSteps_. -/
theorem ctor_planning_parameters {W M : Type} (api : OdeApi W M)
    (base : RigidBodyEnvironment M) (w : W) :
    (RigidBodyEnvironment.ctor api base w).1.stepSize_ = 0.05
      ∧ (RigidBodyEnvironment.ctor api base w).1.maxContacts_ = 1
      ∧ (RigidBodyEnvironment.ctor api base w).1.minControlSteps_ = 10
      ∧ (RigidBodyEnvironment.ctor api base w).1.maxControlSteps_ = 500
      ∧ 0 < (RigidBodyEnvironment.ctor api base w).1.minControlSteps_
      ∧ (RigidBodyEnvironment.ctor api base w).1.minControlSteps_
          ≤ (RigidBodyEnvironment.ctor api base w).1.maxControlSteps_
      ∧ 0 < (RigidBodyEnvironment.ctor api base w).1.stepSize_ := by
  obtain ⟨env', h⟩ := createWorld_eq_setPlanningParameters api base w
  obtain ⟨hs, hc, hmin, hmax⟩ := setPlanningParameters_values env'
  simp only [RigidBodyEnvironment.ctor, h, hs, hc, hmin, hmax]
  norm_num

/-! ## The bounds of the state space -/

/-- C11: after the constructor of `RigidBodyStateSpace` the position bounds are
-200 and 200 on each of the three axes, and the linear-velocity bounds and the
angular-velocity bounds are -20 and 20 on each of the three axes. -/
theorem ctor_declares_bounds (base : RigidBodyStateSpace) :
    (RigidBodyStateSpace.ctor base).volumeBounds.low = [-200, -200, -200]
      ∧ (RigidBodyStateSpace.ctor base).volumeBounds.high = [200, 200, 200]
      ∧ (RigidBodyStateSpace.ctor base).linearVelocityBounds.low = [-20, -20, -20]
      ∧ (RigidBodyStateSpace.ctor base).linearVelocityBounds.high = [20, 20, 20]
      ∧ (RigidBodyStateSpace.ctor base).angularVelocityBounds.low = [-20, -20, -20]
      ∧ (RigidBodyStateSpace.ctor base).angularVelocityBounds.high = [20, 20, 20] :=
  ⟨rfl, rfl, rfl, rfl, rfl, rfl⟩

/-! ## Applying a control -/

/-- C12: let `facc` read the force accumulated on a body, and let
`dBodyAddForce` add its three arguments to the accumulator of the body it is
given.  Then for every control, of any size, `applyControl` is the single call
`dBodyAddForce(boxBody, control[0], control[1], control[2])`; it adds exactly
the three components of the control to the force accumulated on `boxBody`; it
leaves the environment as it is; and whatever that library call preserves,
`applyControl` preserves. -/
theorem applyControl_adds_control {W M : Type} (api : OdeApi W M) (facc : W → dBodyID → Vec3)
    (hadd : ∀ (b : dBodyID) (fx fy fz : ℝ) (w : W),
      facc (api.dBodyAddForce b fx fy fz w) b = facc w b + ![fx, fy, fz])
    (env : RigidBodyEnvironment M) (control : Vec3) (w : W) :
    RigidBodyEnvironment.applyControl api env control w
        = api.dBodyAddForce env.boxBody (control 0) (control 1) (control 2) w
      ∧ (∀ i : Fin 3, facc (RigidBodyEnvironment.applyControl api env control w) env.boxBody i
          = facc w env.boxBody i + control i)
      ∧ ((PublicOp.applyControl control).apply api (env, w)).1 = env
      ∧ (∀ (α : Type) (obs : W → α),
          (∀ (b : dBodyID) (fx fy fz : ℝ) (v : W), obs (api.dBodyAddForce b fx fy fz v) = obs v) →
            obs (RigidBodyEnvironment.applyControl api env control w) = obs w) := by
  refine ⟨rfl, ?_, rfl, ?_⟩
  · intro i
    unfold RigidBodyEnvironment.applyControl
    rw [hadd]
    fin_cases i <;> simp
  · intro α obs hobs
    exact hobs _ _ _ _ _

/-- A witness for C12, in the reference model of the library: the control
(5, -7, 0.1), whose first two components exceed the bound 0.2, is added on
body 4, on which the force (1, 1, 1) is accumulated already. -/
theorem applyControl_adds_control_witness :
    (RigidBodyEnvironment.applyControl (modelApi 1 2 3 4)
          { blankEnvironment with boxBody := 4 } ![5, -7, 0.1]
          { calls := [], facc := fun _ _ => 1 }).facc 4 0 = 1 + 5
      ∧ (RigidBodyEnvironment.applyControl (modelApi 1 2 3 4)
          { blankEnvironment with boxBody := 4 } ![5, -7, 0.1]
          { calls := [], facc := fun _ _ => 1 }).facc 4 1 = 1 + (-7)
      ∧ (RigidBodyEnvironment.applyControl (modelApi 1 2 3 4)
          { blankEnvironment with boxBody := 4 } ![5, -7, 0.1]
          { calls := [], facc := fun _ _ => 1 }).facc 4 2 = 1 + 0.1 :=
  ⟨(applyControl_adds_control (modelApi 1 2 3 4) (fun w => w.facc)
      (fun b fx fy fz w => by simp [modelApi])
      { blankEnvironment with boxBody := 4 } ![5, -7, 0.1]
      { calls := [], facc := fun _ _ => 1 }).2.1 0,
    (applyControl_adds_control (modelApi 1 2 3 4) (fun w => w.facc)
      (fun b fx fy fz w => by simp [modelApi])
      { blankEnvironment with boxBody := 4 } ![5, -7, 0.1]
      { calls := [], facc := fun _ _ => 1 }).2.1 1,
    (applyControl_adds_control (modelApi 1 2 3 4) (fun w => w.facc)
      (fun b fx fy fz w => by simp [modelApi])
      { blankEnvironment with boxBody := 4 } ![5, -7, 0.1]
      { calls := [], facc := fun _ _ => 1 }).2.1 2⟩

/-! ## Construction of the world -/

/-- The handles and the planner-visible members after `createWorld`, for every
behaviour of the physics library. -/
theorem createWorld_stores_handles {W M : Type} (api : OdeApi W M)
    (env : RigidBodyEnvironment M) (w : W) :
    (RigidBodyEnvironment.createWorld api env w).1.bodyWorld = (api.dWorldCreate w).1
      ∧ (RigidBodyEnvironment.createWorld api env w).1.world_
          = (RigidBodyEnvironment.createWorld api env w).1.bodyWorld
      ∧ (RigidBodyEnvironment.createWorld api env w).1.space
          = (api.dHashSpaceCreate 0 (api.dWorldCreate w).2).1
      ∧ (RigidBodyEnvironment.createWorld api env w).1.collisionSpaces_
          = env.collisionSpaces_ ++ [(RigidBodyEnvironment.createWorld api env w).1.space]
      ∧ (RigidBodyEnvironment.createWorld api env w).1.stateBodies_
          = env.stateBodies_ ++ [(RigidBodyEnvironment.createWorld api env w).1.boxBody] :=
  ⟨rfl, rfl, rfl, rfl, rfl⟩

/-- The calls that `createWorld` makes in the reference model of the library. -/
theorem createWorld_calls (world : dWorldID) (space : dSpaceID) (geom : dGeomID)
    (body : dBodyID) (env : RigidBodyEnvironment Unit) (w : OdeModel) :
    (RigidBodyEnvironment.createWorld (modelApi world space geom body) env w).2.calls
      = w.calls ++ [OdeCall.dWorldCreate, OdeCall.dHashSpaceCreate 0,
          OdeCall.dWorldSetGravity world, OdeCall.dCreateBox space, OdeCall.dBodyCreate world,
          OdeCall.dBodySetMass body, OdeCall.dGeomSetBody geom body] := by
  simp [RigidBodyEnvironment.createWorld, modelApi]

/-- C13, as stated, fails: when `dWorldCreate` yields the null handle, the
constructor still returns an environment, with `world_` null, the space and
the body registered and the planning parameters set, and no space or world has
been destroyed. -/
theorem ctor_with_failed_world_creation :
    (RigidBodyEnvironment.ctor (modelApi 0 2 3 4) blankEnvironment OdeModel.empty).1.bodyWorld = 0
      ∧ (RigidBodyEnvironment.ctor (modelApi 0 2 3 4) blankEnvironment OdeModel.empty).1.world_ = 0
      ∧ (RigidBodyEnvironment.ctor (modelApi 0 2 3 4) blankEnvironment
            OdeModel.empty).1.collisionSpaces_ = [2]
      ∧ (RigidBodyEnvironment.ctor (modelApi 0 2 3 4) blankEnvironment
            OdeModel.empty).1.stateBodies_ = [4]
      ∧ (RigidBodyEnvironment.ctor (modelApi 0 2 3 4) blankEnvironment
            OdeModel.empty).1.stepSize_ = 0.05
      ∧ (RigidBodyEnvironment.ctor (modelApi 0 2 3 4) blankEnvironment
            OdeModel.empty).1.maxControlSteps_ = 500
      ∧ (RigidBodyEnvironment.ctor (modelApi 0 2 3 4) blankEnvironment
            OdeModel.empty).2.calls.any OdeCall.isDestroy = false := by
  refine ⟨rfl, rfl, rfl, rfl, rfl, rfl, ?_⟩
  rw [RigidBodyEnvironment.ctor, createWorld_calls]
  rfl

/-- C13, amended: `createWorld` does not check the handles it obtains.
Whatever the four creation functions return, a null handle included, the
constructor returns an environment that holds the returned world and space
handles, has `world_` set to the world handle, has the space and the body
appended to `collisionSpaces_` and `stateBodies_`, and has the planning
parameters 0.05, 1, 10 and 500; in the reference model of the library, for
all four handles, the constructor makes seven calls and none of them destroys
a space or a world. -/
theorem ctor_does_not_check_handles {W M : Type} (api : OdeApi W M)
    (base : RigidBodyEnvironment M) (w : W)
    (world : dWorldID) (space : dSpaceID) (geom : dGeomID) (body : dBodyID)
    (base' : RigidBodyEnvironment Unit) (w' : OdeModel) :
    (RigidBodyEnvironment.ctor api base w).1.bodyWorld = (api.dWorldCreate w).1
      ∧ (RigidBodyEnvironment.ctor api base w).1.world_ = (api.dWorldCreate w).1
      ∧ (RigidBodyEnvironment.ctor api base w).1.space
          = (api.dHashSpaceCreate 0 (api.dWorldCreate w).2).1
      ∧ (RigidBodyEnvironment.ctor api base w).1.collisionSpaces_
          = base.collisionSpaces_ ++ [(RigidBodyEnvironment.ctor api base w).1.space]
      ∧ (RigidBodyEnvironment.ctor api base w).1.stateBodies_
          = base.stateBodies_ ++ [(RigidBodyEnvironment.ctor api base w).1.boxBody]
      ∧ (RigidBodyEnvironment.ctor api base w).1.stepSize_ = 0.05
      ∧ (RigidBodyEnvironment.ctor api base w).1.maxContacts_ = 1
      ∧ (RigidBodyEnvironment.ctor api base w).1.minControlSteps_ = 10
      ∧ (RigidBodyEnvironment.ctor api base w).1.maxControlSteps_ = 500
      ∧ (RigidBodyEnvironment.ctor (modelApi world space geom body) base' w').1.bodyWorld = world
      ∧ (RigidBodyEnvironment.ctor (modelApi world space geom body) base' w').1.space = space
      ∧ (RigidBodyEnvironment.ctor (modelApi world space geom body) base' w').1.boxGeom = geom
      ∧ (RigidBodyEnvironment.ctor (modelApi world space geom body) base' w').1.boxBody = body
      ∧ (RigidBodyEnvironment.ctor (modelApi world space geom body) base' w').2.calls
          = w'.calls ++ [OdeCall.dWorldCreate, OdeCall.dHashSpaceCreate 0,
              OdeCall.dWorldSetGravity world, OdeCall.dCreateBox space,
              OdeCall.dBodyCreate world, OdeCall.dBodySetMass body,
              OdeCall.dGeomSetBody geom body]
      ∧ ([OdeCall.dWorldCreate, OdeCall.dHashSpaceCreate 0,
              OdeCall.dWorldSetGravity world, OdeCall.dCreateBox space,
              OdeCall.dBodyCreate world, OdeCall.dBodySetMass body,
              OdeCall.dGeomSetBody geom body].any OdeCall.isDestroy = false) :=
  ⟨rfl, rfl, rfl, rfl, rfl, rfl, rfl, rfl, rfl, rfl, rfl, rfl, rfl,
    createWorld_calls world space geom body base' w', rfl⟩

/-! ## The registered bodies and spaces -/

/-- A public method other than `setPlanningParameters` and `createWorld` leaves
the environment as it is. -/
theorem apply_keeps_environment {W M : Type} (api : OdeApi W M) (op : PublicOp)
    (st : RigidBodyEnvironment M × W) (hop : op.registers = false) :
    (op.apply api st).1 = st.1 := by
  cases op <;> first | rfl | simp [PublicOp.registers] at hop

/-- A sequence of public methods without `setPlanningParameters` and
`createWorld` leaves the environment as it is. -/
theorem runOps_keeps_environment {W M : Type} (api : OdeApi W M) (ops : List PublicOp)
    (st : RigidBodyEnvironment M × W) (hops : ∀ op ∈ ops, op.registers = false) :
    (runOps api ops st).1 = st.1 := by
  induction ops generalizing st with
  | nil => rfl
  | cons op rest ih =>
    have hrest : ∀ o ∈ rest, o.registers = false := fun o ho =>
      hops o (List.mem_cons_of_mem op ho)
    have hstep := apply_keeps_environment api op st (hops op (List.mem_cons_self op rest))
    show (runOps api rest (op.apply api st)).1 = st.1
    rw [ih (op.apply api st) hrest, hstep]

/-- C14, as stated, fails: after the constructor, one more call of the public
`setPlanningParameters` leaves two entries in `stateBodies_` and in
`collisionSpaces_`, and so does one more call of the public `createWorld`. -/
theorem registered_twice_after_second_call :
    (runOps (modelApi 1 2 3 4) [PublicOp.setPlanningParameters]
        (RigidBodyEnvironment.ctor (modelApi 1 2 3 4) blankEnvironment
          OdeModel.empty)).1.stateBodies_ = [4, 4]
      ∧ (runOps (modelApi 1 2 3 4) [PublicOp.setPlanningParameters]
        (RigidBodyEnvironment.ctor (modelApi 1 2 3 4) blankEnvironment
          OdeModel.empty)).1.collisionSpaces_ = [2, 2]
      ∧ (runOps (modelApi 1 2 3 4) [PublicOp.createWorld]
        (RigidBodyEnvironment.ctor (modelApi 1 2 3 4) blankEnvironment
          OdeModel.empty)).1.stateBodies_.length = 2
      ∧ (runOps (modelApi 1 2 3 4) [PublicOp.createWorld]
        (RigidBodyEnvironment.ctor (modelApi 1 2 3 4) blankEnvironment
          OdeModel.empty)).1.collisionSpaces_.length = 2 :=
  ⟨rfl, rfl, rfl, rfl⟩

/-- C14, amended: when the constructor of the base class leaves `stateBodies_`
and `collisionSpaces_` empty, then after the constructor and after every
sequence of public methods that contains neither `setPlanningParameters` nor
`createWorld`, `stateBodies_` has exactly one entry, `boxBody`, and
`collisionSpaces_` has exactly one entry, `space`. -/
theorem one_body_one_space {W M : Type} (api : OdeApi W M) (base : RigidBodyEnvironment M)
    (w : W) (ops : List PublicOp)
    (hbodies : base.stateBodies_ = []) (hspaces : base.collisionSpaces_ = [])
    (hops : ∀ op ∈ ops, op.registers = false) :
    (runOps api ops (RigidBodyEnvironment.ctor api base w)).1.stateBodies_
        = [(runOps api ops (RigidBodyEnvironment.ctor api base w)).1.boxBody]
      ∧ (runOps api ops (RigidBodyEnvironment.ctor api base w)).1.collisionSpaces_
        = [(runOps api ops (RigidBodyEnvironment.ctor api base w)).1.space] := by
  rw [runOps_keeps_environment api ops _ hops]
  obtain ⟨-, -, -, hs, hb⟩ := createWorld_stores_handles api base w
  rw [hbodies] at hb
  rw [hspaces] at hs
  exact ⟨hb, hs⟩

/-- A witness for C14: in the reference model of the library, the constructor
followed by `getControlBounds`, `applyControl`, `setupContact`, `applyControl`
and `destroyWorld`. -/
theorem one_body_one_space_witness :
    (runOps (modelApi 1 2 3 4)
        [PublicOp.getControlBounds, PublicOp.applyControl ![5, -7, 0.1], PublicOp.setupContact,
          PublicOp.applyControl ![0, 0, 0.2], PublicOp.destroyWorld]
        (RigidBodyEnvironment.ctor (modelApi 1 2 3 4) blankEnvironment
          OdeModel.empty)).1.stateBodies_ = [4]
      ∧ (runOps (modelApi 1 2 3 4)
        [PublicOp.getControlBounds, PublicOp.applyControl ![5, -7, 0.1], PublicOp.setupContact,
          PublicOp.applyControl ![0, 0, 0.2], PublicOp.destroyWorld]
        (RigidBodyEnvironment.ctor (modelApi 1 2 3 4) blankEnvironment
          OdeModel.empty)).1.collisionSpaces_ = [2] :=
  one_body_one_space (modelApi 1 2 3 4) blankEnvironment OdeModel.empty
    [PublicOp.getControlBounds, PublicOp.applyControl ![5, -7, 0.1], PublicOp.setupContact,
      PublicOp.applyControl ![0, 0, 0.2], PublicOp.destroyWorld]
    rfl rfl (by simp [PublicOp.registers])

/-! ## The distance functions in binary64 arithmetic -/

set_option maxRecDepth 8000

set_option exponentiation.threshold 10000

/-- In binary64 arithmetic a finite value minus itself is zero. -/
theorem sub_self_finite (x : Int) : F64.finite x - F64.finite x = F64.finite 0 := by
  show F64.sub (F64.finite x) (F64.finite x) = F64.finite 0
  simp only [F64.sub, sub_self, lt_self_iff_false, decide_False, Int.natAbs_zero]
  decide

/-- The bisection of `bitLength` ends at the position of the highest set bit. -/
theorem foldl_bisection (n k b : Nat) (h1 : 2 ^ b ≤ n) (h2 : n < 2 ^ (b + 2 ^ k)) :
    2 ^ ((F64.bisectionSteps k).foldl (fun b i => if 2 ^ (b + i) ≤ n then b + i else b) b) ≤ n
      ∧ n < 2 ^ ((F64.bisectionSteps k).foldl
          (fun b i => if 2 ^ (b + i) ≤ n then b + i else b) b + 1) := by
  induction k generalizing b with
  | zero => exact ⟨h1, by simpa using h2⟩
  | succ k ih =>
    simp only [F64.bisectionSteps, List.foldl_cons]
    by_cases hc : 2 ^ (b + 2 ^ k) ≤ n
    · rw [if_pos hc]
      refine ih (b + 2 ^ k) hc ?_
      have : b + 2 ^ k + 2 ^ k = b + 2 ^ (k + 1) := by ring
      rw [this]
      exact h2
    · rw [if_neg hc]
      exact ih b h1 (lt_of_not_ge hc)

/-- The function `bitLength` is the number of bits: a positive `n` below
`2^8192` lies between `2^(bitLength n - 1)` and `2^(bitLength n)`. -/
theorem bitLength_spec (n : Nat) (hpos : 0 < n) (hlt : n < 2 ^ 8192) :
    2 ^ (F64.bitLength n - 1) ≤ n ∧ n < 2 ^ F64.bitLength n := by
  have hlist : [4096, 2048, 1024, 512, 256, 128, 64, 32, 16, 8, 4, 2, 1]
      = F64.bisectionSteps 13 := by decide
  have h := foldl_bisection n 13 0 (by simpa using hpos) (by simpa using hlt)
  unfold F64.bitLength
  rw [if_neg (Nat.pos_iff_ne_zero.mp hpos), hlist, Nat.add_sub_cancel]
  exact h

/-- The function `isqrtBits` computes the integer square root: started from
`r` with `r^2 <= n < (r + 2^i)^2`, it ends at `q` with `q^2 <= n < (q + 1)^2`. -/
theorem isqrtBits_spec (n i r : Nat) (h1 : r * r ≤ n) (h2 : n < (r + 2 ^ i) * (r + 2 ^ i)) :
    F64.isqrtBits n i r * F64.isqrtBits n i r ≤ n
      ∧ n < (F64.isqrtBits n i r + 1) * (F64.isqrtBits n i r + 1) := by
  induction i generalizing r with
  | zero => exact ⟨h1, by simpa [F64.isqrtBits] using h2⟩
  | succ i ih =>
    simp only [F64.isqrtBits]
    by_cases hc : (r + 2 ^ i) * (r + 2 ^ i) ≤ n
    · rw [if_pos hc]
      refine ih (r + 2 ^ i) hc ?_
      have : r + 2 ^ i + 2 ^ i = r + 2 ^ (i + 1) := by ring
      rw [this]
      exact h2
    · rw [if_neg hc]
      exact ih r h1 (lt_of_not_ge hc)

/-- The function `roundUnits` rounds to nearest: its result is a multiple of
the spacing `2^j` of the numbers with 53 significant bits around
`num / 2^shift`, and differs from `num / 2^shift` by at most half that
spacing. -/
theorem roundUnits_near (num shift : Nat) :
    2 ^ (F64.bitLength (num / 2 ^ shift) - 53) ∣ F64.roundUnits num shift
      ∧ 2 * |((F64.roundUnits num shift * 2 ^ shift : Nat) : Int) - (num : Int)|
          ≤ ((2 ^ (shift + (F64.bitLength (num / 2 ^ shift) - 53)) : Nat) : Int) := by
  unfold F64.roundUnits
  simp only []
  generalize F64.bitLength (num / 2 ^ shift) - 53 = j
  rw [Nat.add_sub_cancel_left]
  refine ⟨Dvd.intro_left _ rfl, ?_⟩
  have hP : 0 < 2 ^ (shift + j) := Nat.two_pow_pos _
  have hdm := Nat.div_add_mod num (2 ^ (shift + j))
  have hr := Nat.mod_lt num hP
  have hmul : ∀ q : Nat, q * 2 ^ j * 2 ^ shift = 2 ^ (shift + j) * q := by
    intro q
    rw [pow_add]
    ring
  rw [hmul]
  generalize 2 ^ (shift + j) = P at *
  generalize num / P = q at *
  generalize num % P = r at *
  subst hdm
  split_ifs with h
  · push_cast
    have e : (P : Int) * ((q : Int) + 1) - ((P : Int) * (q : Int) + (r : Int))
        = (P : Int) - (r : Int) := by ring
    rw [e, abs_of_nonneg (by omega)]
    rcases h with h | ⟨h, -⟩ <;> omega
  · push_cast
    rw [not_or] at h
    have h1 : 2 * r ≤ P := not_lt.mp h.1
    have e : (P : Int) * (q : Int) - ((P : Int) * (q : Int) + (r : Int)) = -(r : Int) := by ring
    rw [e, abs_neg, abs_of_nonneg (by omega)]
    omega

/-- The result of `roundUnits` has at most 53 significant bits: it is
`q * 2^j` with `q` at most `2^53`. -/
theorem roundUnits_bits (num shift : Nat) (hlt : num / 2 ^ shift < 2 ^ 8192) :
    ∃ q : Nat, F64.roundUnits num shift = q * 2 ^ (F64.bitLength (num / 2 ^ shift) - 53)
      ∧ q ≤ 2 ^ 53 := by
  have hbl : num / 2 ^ shift < 2 ^ (53 + (F64.bitLength (num / 2 ^ shift) - 53)) := by
    rcases Nat.eq_zero_or_pos (num / 2 ^ shift) with h0 | hpos
    · rw [h0]
      exact Nat.two_pow_pos _
    · refine lt_of_lt_of_le (bitLength_spec _ hpos hlt).2 ?_
      exact Nat.pow_le_pow_right (by norm_num) (by omega)
  unfold F64.roundUnits
  simp only []
  generalize F64.bitLength (num / 2 ^ shift) - 53 = j at hbl ⊢
  rw [Nat.add_sub_cancel_left]
  have hq : num / 2 ^ (shift + j) < 2 ^ 53 := by
    rw [pow_add, ← Nat.div_div_eq_div_mul, Nat.div_lt_iff_lt_mul (Nat.two_pow_pos _), ← pow_add]
    exact hbl
  refine ⟨_, rfl, ?_⟩
  split_ifs <;> omega

/-- The function `sqrtUnits` rounds the square root to nearest: for a positive
`k` below `2^2098`, with `n = k * 2^1074`, its result is `q * 2^j` where the
square root of `n` lies between `(q - 1/2) * 2^j` and `(q + 1/2) * 2^j`. -/
theorem sqrtUnits_near (k : Nat) (hk : 0 < k) (hlt : k < 2 ^ 2098) :
    ∃ q j : Nat, F64.sqrtUnits k = q * 2 ^ j
      ∧ (2 * q - 1) * (2 * q - 1) * 4 ^ j ≤ 4 * (k * 2 ^ 1074)
      ∧ 4 * (k * 2 ^ 1074) ≤ (2 * q + 1) * (2 * q + 1) * 4 ^ j := by
  have hnpos : 0 < k * 2 ^ 1074 := Nat.mul_pos hk (Nat.two_pow_pos _)
  have hnlt : k * 2 ^ 1074 < 2 ^ 8192 := by
    calc k * 2 ^ 1074 < 2 ^ 2098 * 2 ^ 1074 := Nat.mul_lt_mul_of_pos_right hlt (Nat.two_pow_pos _)
      _ = 2 ^ 3172 := by rw [← pow_add]
      _ ≤ 2 ^ 8192 := Nat.pow_le_pow_right (by norm_num) (by norm_num)
  have hbl := (bitLength_spec _ hnpos hnlt).2
  unfold F64.sqrtUnits
  simp only []
  generalize k * 2 ^ 1074 = n at hbl ⊢
  generalize F64.bitLength n = bl at hbl ⊢
  generalize hj : (bl + 1) / 2 - 53 = j
  have h4 : 0 < 4 ^ j := pow_pos (by norm_num) j
  have hm : n / 4 ^ j < (0 + 2 ^ 54) * (0 + 2 ^ 54) := by
    rw [Nat.div_lt_iff_lt_mul h4]
    refine lt_of_lt_of_le hbl ?_
    have e : (0 + 2 ^ 54) * (0 + 2 ^ 54) * 4 ^ j = 2 ^ (108 + 2 * j) := by
      rw [Nat.zero_add, ← pow_add, show (4 : Nat) = 2 ^ 2 by norm_num, ← pow_mul, ← pow_add]
    rw [e]
    exact Nat.pow_le_pow_right (by norm_num) (by omega)
  obtain ⟨hlo, hhi⟩ := isqrtBits_spec (n / 4 ^ j) 54 0 (Nat.zero_le _) hm
  generalize F64.isqrtBits (n / 4 ^ j) 54 0 = q0 at hlo hhi ⊢
  have hdm := Nat.div_add_mod n (4 ^ j)
  have hr := Nat.mod_lt n h4
  generalize n / 4 ^ j = m at hlo hhi hdm
  generalize n % 4 ^ j = r at hdm hr
  generalize hP : 4 ^ j = P at h4 hdm hr ⊢
  have hlo' : q0 * q0 * P ≤ n := by
    calc q0 * q0 * P ≤ m * P := Nat.mul_le_mul_right P hlo
      _ ≤ n := by rw [← hdm, Nat.mul_comm]; exact Nat.le_add_right _ _
  have hhi' : n < (q0 + 1) * (q0 + 1) * P := by
    have h1 : m + 1 ≤ (q0 + 1) * (q0 + 1) := hhi
    calc n = P * m + r := hdm.symm
      _ < P * m + P := by omega
      _ = (m + 1) * P := by ring
      _ ≤ (q0 + 1) * (q0 + 1) * P := Nat.mul_le_mul_right P h1
  split_ifs with h
  · refine ⟨q0 + 1, j, rfl, ?_, ?_⟩ <;> rw [hP]
    · have e : 2 * (q0 + 1) - 1 = 2 * q0 + 1 := by omega
      rw [e]
      rcases h with h | ⟨h, -⟩
      · exact le_of_lt h
      · exact le_of_eq h
    · have e : (2 * (q0 + 1) + 1) * (2 * (q0 + 1) + 1) * P
          = 4 * ((q0 + 1) * (q0 + 1) * P) + (4 * q0 + 5) * P := by ring
      rw [e]
      omega
  · refine ⟨q0, j, rfl, ?_, ?_⟩ <;> rw [hP]
    · have e1 : (2 * q0 - 1) * (2 * q0 - 1) ≤ 4 * (q0 * q0) := by
        calc (2 * q0 - 1) * (2 * q0 - 1) ≤ (2 * q0) * (2 * q0) :=
              Nat.mul_le_mul (Nat.sub_le _ _) (Nat.sub_le _ _)
          _ = 4 * (q0 * q0) := by ring
      calc (2 * q0 - 1) * (2 * q0 - 1) * P ≤ 4 * (q0 * q0) * P := Nat.mul_le_mul_right P e1
        _ = 4 * (q0 * q0 * P) := by ring
        _ ≤ 4 * n := Nat.mul_le_mul_left 4 hlo'
    · rw [not_or] at h
      exact not_lt.mp h.1

/-- C16, as stated, fails in binary64 arithmetic, on states within the
declared bounds: the states at (1 + 9 * 2^(-52), 55, 35) and
(1 + 7 * 2^(-52), 55, 35), whose coordinates are binary64 values, have the goal
distances 29 - 2^(-48) and 29 and the distance 2^(-51); the goal distances
differ by 2^(-48), which is not at most the distance.  The first four
equations are the steps of `distanceGoal` on the first state: the difference
`pos[0] - 30`, rounded to a multiple of 2^(-48), its square, the sum of the
three squares, and the square root. -/
theorem distanceGoal_not_lipschitz_in_binary64 :
    (F64.ofBinary (2 ^ 52 + 9) (-52)).isDouble = true
      ∧ (F64.ofBinary (2 ^ 52 + 7) (-52)).isDouble = true
      ∧ F64.ofBinary (2 ^ 52 + 9) (-52) - F64.ofBinary 30 0
          = F64.ofBinary (-(29 * 2 ^ 48 - 1)) (-48)
      ∧ F64.ofBinary (29 * 2 ^ 48 - 1) (-48) * F64.ofBinary (29 * 2 ^ 48 - 1) (-48)
          = F64.ofBinary (841 * 2 ^ 43 - 2) (-43)
      ∧ F64.ofBinary (841 * 2 ^ 43 - 2) (-43) + F64.finite 0 * F64.finite 0
            + F64.finite 0 * F64.finite 0
          = F64.ofBinary (841 * 2 ^ 43 - 2) (-43)
      ∧ sqrtF (F64.ofBinary (841 * 2 ^ 43 - 2) (-43)) = F64.ofBinary (29 * 2 ^ 48 - 1) (-48)
      ∧ RigidBodyGoal.distanceGoalF nearOneStateA = F64.ofBinary (29 * 2 ^ 48 - 1) (-48)
      ∧ RigidBodyGoal.distanceGoalF nearOneStateB = F64.ofBinary 29 0
      ∧ RigidBodyStateSpace.distanceF nearOneStateA nearOneStateB = F64.ofBinary 1 (-51)
      ∧ fabsF (RigidBodyGoal.distanceGoalF nearOneStateA
            - RigidBodyGoal.distanceGoalF nearOneStateB) = F64.ofBinary 1 (-48)
      ∧ F64.le
          (fabsF (RigidBodyGoal.distanceGoalF nearOneStateA
            - RigidBodyGoal.distanceGoalF nearOneStateB))
          (RigidBodyStateSpace.distanceF nearOneStateA nearOneStateB) = false := by
  refine ⟨?_, ?_, ?_, ?_, ?_, ?_, ?_, ?_, ?_, ?_, ?_⟩ <;> decide

/-- C17, as stated, fails in binary64 arithmetic: the state at (2^(-600), 0, 0)
and the state at (0, 0, 0), whose coordinates are binary64 values, have
different positions and the distance zero, because the square of 2^(-600)
rounds to zero; the same holds for the state at (1e-170, 0, 0). -/
theorem distance_zero_at_different_positions_in_binary64 :
    (F64.ofBinary 1 (-600)).isDouble = true
      ∧ tinyState.getBodyPosition0 0 ≠ originState.getBodyPosition0 0
      ∧ tinyState.getBodyPosition0 ≠ originState.getBodyPosition0
      ∧ F64.ofBinary 1 (-600) * F64.ofBinary 1 (-600) = F64.finite 0
      ∧ RigidBodyStateSpace.distanceF tinyState originState = F64.finite 0
      ∧ (F64.ofBinary 5438853046443695 (-617)).isDouble = true
      ∧ tinyDecimalState.getBodyPosition0 0 ≠ originState.getBodyPosition0 0
      ∧ RigidBodyStateSpace.distanceF tinyDecimalState originState = F64.finite 0 := by
  refine ⟨by decide, by decide, ?_, by decide, by decide, by decide, by decide, by decide⟩
  intro h
  have h0 := congrFun h 0
  revert h0
  decide

/-! ## The goal distance and the metric -/

/-- The method `distanceGoal` is the Euclidean distance of the position to the
point (30, 55, 35). -/
theorem distanceGoal_eq_dist (g : RigidBodyGoal) (s : StateType) :
    g.distanceGoal s = dist (toEuclidean s.body0.position) (toEuclidean ![30, 55, 35]) := by
  rw [distanceGoal_eq_sqrt, EuclideanSpace.dist_eq, Fin.sum_univ_three]
  simp [toEuclidean, Real.dist_eq, sq_abs]

/-- C16, amended: over the reals, the goal distances of two states differ by
at most the distance of the two states; the goal distance of a state is its
distance to any state placed at (30, 55, 35), over the reals and in binary64
arithmetic alike; and, over the reals, when a state `t` has goal distance at
most the threshold 0.5 of the goal region and `s` is within distance `d` of
`t`, the goal distance of `s` is at most 0.5 + d. -/
theorem distanceGoal_lipschitz (base : RigidBodyGoal) :
    (∀ s1 s2 : StateType,
        |(RigidBodyGoal.ctor base).distanceGoal s1 - (RigidBodyGoal.ctor base).distanceGoal s2|
          ≤ RigidBodyStateSpace.distance s1 s2)
      ∧ (∀ s g : StateType,
          (RigidBodyGoal.ctor base).distanceGoal s
            = RigidBodyStateSpace.distance s (g.withPosition ![30, 55, 35]))
      ∧ (∀ (s t : StateType) (d : ℝ),
          (RigidBodyGoal.ctor base).distanceGoal t ≤ (RigidBodyGoal.ctor base).threshold_ →
          RigidBodyStateSpace.distance s t ≤ d →
            (RigidBodyGoal.ctor base).distanceGoal s ≤ 0.5 + d)
      ∧ (∀ (s : StateTypeF) (v a : Vec3F) (o : Fin 4 → F64),
          RigidBodyGoal.distanceGoalF s
            = RigidBodyStateSpace.distanceF s
                { position := ![F64.ofBinary 30 0, F64.ofBinary 55 0, F64.ofBinary 35 0],
                  linearVelocity := v, angularVelocity := a, orientation := o }) := by
  have hlip : ∀ s1 s2 : StateType,
      |(RigidBodyGoal.ctor base).distanceGoal s1 - (RigidBodyGoal.ctor base).distanceGoal s2|
        ≤ RigidBodyStateSpace.distance s1 s2 := by
    intro s1 s2
    rw [distanceGoal_eq_dist, distanceGoal_eq_dist, distance_eq_dist]
    exact abs_dist_sub_le _ _ _
  refine ⟨hlip, ?_, ?_, ?_⟩
  · intro s g
    rw [distanceGoal_eq_dist, distance_eq_dist]
    rfl
  · intro s t d ht hd
    have h1 := (abs_le.mp (hlip s t)).2
    have h2 : (RigidBodyGoal.ctor base).threshold_ = 0.5 := rfl
    rw [h2] at ht
    linarith
  · intro s v a o
    rfl

/-- A witness for C16: the state at (30, 55, 35.5) has goal distance 0.5, and
the state at (30, 58, 39.5) is at distance 5 from it, so its goal distance is
at most 5.5. -/
theorem distanceGoal_lipschitz_witness :
    (RigidBodyGoal.ctor { threshold_ := 0 }).distanceGoal (sampleState ![30, 58, 39.5] 0 1)
      ≤ 0.5 + 5 :=
  (distanceGoal_lipschitz { threshold_ := 0 }).2.2.1
    (sampleState ![30, 58, 39.5] 0 1) (sampleState ![30, 55, 35.5] 3 0) 5
    (by
      rw [distanceGoal_eq_sqrt]
      show Real.sqrt _ ≤ (0.5 : ℝ)
      rw [Real.sqrt_le_left (by norm_num)]
      simp [sampleState]
      norm_num)
    (by
      rw [distance_eq_sqrt, Real.sqrt_le_left (by norm_num)]
      simp [sampleState]
      norm_num)

/-- C17, amended: over the reals the distance of two states is zero exactly
when body 0 has the same position in both; in binary64 arithmetic the distance
of two states with the same finite position is zero; there are two different
states, with the same position and different linear velocities, at distance
zero, over the reals and in binary64 arithmetic. -/
theorem distance_eq_zero_iff_same_position :
    (∀ s1 s2 : StateType,
        RigidBodyStateSpace.distance s1 s2 = 0 ↔ s1.getBodyPosition0 = s2.getBodyPosition0)
      ∧ (∃ s1 s2 : StateType, s1 ≠ s2
          ∧ s1.getBodyPosition0 = s2.getBodyPosition0
          ∧ s1.body0.linearVelocity ≠ s2.body0.linearVelocity
          ∧ RigidBodyStateSpace.distance s1 s2 = 0)
      ∧ (∀ (k : Fin 3 → Int) (v1 a1 v2 a2 : Vec3F) (o1 o2 : Fin 4 → F64),
          RigidBodyStateSpace.distanceF
              { position := fun i => F64.finite (k i), linearVelocity := v1,
                angularVelocity := a1, orientation := o1 }
              { position := fun i => F64.finite (k i), linearVelocity := v2,
                angularVelocity := a2, orientation := o2 }
            = F64.finite 0)
      ∧ (∃ s1 s2 : StateTypeF, s1 ≠ s2
          ∧ s1.getBodyPosition0 = s2.getBodyPosition0
          ∧ s1.linearVelocity ≠ s2.linearVelocity
          ∧ RigidBodyStateSpace.distanceF s1 s2 = F64.finite 0) := by
  have hiff : ∀ s1 s2 : StateType,
      RigidBodyStateSpace.distance s1 s2 = 0 ↔ s1.getBodyPosition0 = s2.getBodyPosition0 := by
    intro s1 s2
    rw [distance_eq_dist, dist_eq_zero]
    exact (WithLp.equiv 2 (Fin 3 → ℝ)).symm.injective.eq_iff
  have hF : ∀ (k : Fin 3 → Int) (v1 a1 v2 a2 : Vec3F) (o1 o2 : Fin 4 → F64),
      RigidBodyStateSpace.distanceF
          { position := fun i => F64.finite (k i), linearVelocity := v1,
            angularVelocity := a1, orientation := o1 }
          { position := fun i => F64.finite (k i), linearVelocity := v2,
            angularVelocity := a2, orientation := o2 }
        = F64.finite 0 := by
    intro k v1 a1 v2 a2 o1 o2
    simp only [RigidBodyStateSpace.distanceF, StateTypeF.getBodyPosition0, sub_self_finite]
    decide
  refine ⟨hiff, ⟨sampleState ![1, 2, 3] 0 1, sampleState ![1, 2, 3] 5 1, ?_, rfl, ?_, ?_⟩, hF,
    ⟨sampleStateF (fun _ => F64.finite 0) (F64.finite 0),
      sampleStateF (fun _ => F64.finite 0) (F64.ofBinary 5 0), ?_, rfl, ?_, hF _ _ _ _ _ _ _⟩⟩
  · intro h
    have hv := congrArg (fun s : StateType => s.body0.linearVelocity 0) h
    simp [sampleState] at hv
  · intro h
    have hv := congrFun h 0
    simp [sampleState] at hv
  · exact (hiff _ _).mpr rfl
  · intro h
    have hv := congrArg (fun s : StateTypeF => s.linearVelocity 0) h
    revert hv
    decide
  · intro h
    have hv := congrFun h 0
    revert hv
    decide

/-! ## The frame of `setupContact` -/

/-- C18: `setupContact` leaves the contact geometry and the remaining surface
parameters as they are; its result does not depend on the two geometries, nor
on the values that the mode, the friction and the softness had before; and
applying it twice gives what applying it once gives. -/
theorem setupContact_frame {S G : Type} (flags : OdeContactFlags) (geom1 geom2 : dGeomID)
    (contact : dContact S G) :
    (RigidBodyEnvironment.setupContact flags geom1 geom2 contact).geom = contact.geom
      ∧ (RigidBodyEnvironment.setupContact flags geom1 geom2 contact).surface.others
          = contact.surface.others
      ∧ (∀ geom1' geom2' : dGeomID,
          RigidBodyEnvironment.setupContact flags geom1' geom2' contact
            = RigidBodyEnvironment.setupContact flags geom1 geom2 contact)
      ∧ (∀ (mode : Nat) (mu soft_cfm : ℝ),
          RigidBodyEnvironment.setupContact flags geom1 geom2
              { surface := { mode := mode, mu := mu, soft_cfm := soft_cfm,
                             others := contact.surface.others },
                geom := contact.geom }
            = RigidBodyEnvironment.setupContact flags geom1 geom2 contact)
      ∧ RigidBodyEnvironment.setupContact flags geom1 geom2
            (RigidBodyEnvironment.setupContact flags geom1 geom2 contact)
          = RigidBodyEnvironment.setupContact flags geom1 geom2 contact :=
  ⟨rfl, rfl, fun _ _ => rfl, fun _ _ _ => rfl, rfl⟩

end SmallSatPlanner
